import Mathlib

/-!
Verification of the real-time question/answer correlation engine of the
slack-qa-bot repository against its natural-language specification.

The embedding follows the Python source:

* src/database/database_manager.py — the SQLite-backed `DatabaseManager`
  that `realtime_monitor.py` instantiates (tables `questions`, `answers`,
  `qa_pairs`, `processed_messages`; uniqueness on each `message_ts` column
  and on the `(question, answer, channel)` triple).
* src/database/production_database.py — the alternative backend; we embed
  its `find_recent_questions` (which handles `hours=None`) and its
  `_store_question_postgres` (ON CONFLICT DO NOTHING .. RETURNING id).
* src/core/openai_analyzer.py — the Oracle adapter: each call site wraps
  the raw transport result and falls back to a fixed negative
  classification on a transport failure or a non-JSON body.
* src/realtime_monitor.py — the correlator: event handler, queue step,
  per-message processing, clustering and the answer-matching loop.

Modelling conventions, used consistently below:

* Machine floats holding confidences and similarity scores become `Rat`;
  the source only builds, compares and takes minima of such scores, and
  every concrete score in the repository is a short decimal, so `Rat`
  reproduces the comparisons exactly.
* Timestamps become `Int` with the usual order.  The source stores ISO
  strings and compares them with the SQL ordering; ISO-8601 strings of one
  format compare lexicographically exactly as their instants compare, so
  an ordered integer is a faithful abstraction.  A lookback of h hours
  becomes the cutoff `now - h` in the same units.
* A Python dict built by json.loads can lack a field; such a field is an
  `Option`.  `d.get(k, v)` becomes `Option.getD`, and the subscript
  `d[k]` becomes `pyIndex`, which raises `PyErr.keyError` when the field
  is absent, exactly as Python does.
* A raised exception is `PyErr` threaded explicitly; a function whose
  Python body can raise past its own statements returns its store state
  together with `Option PyErr`, because SQLite mutations already performed
  before the raise persist (each `with sqlite3.connect` block commits on
  exit, so a later raise does not undo them).
-/

/-- Python exception kinds that the embedded code can raise. -/
inductive PyErr where
  | typeError
  | keyError
  | attributeError
  deriving DecidableEq, Repr

/-- Subscript access `d[k]` on an optional JSON field: raises KeyError when
the field is absent. -/
def pyIndex {α : Type} (o : Option α) : Except PyErr α :=
  match o with
  | some v => Except.ok v
  | none => Except.error PyErr.keyError

namespace PipelineConfig

/-- config/config_manager.py line 81: MESSAGE_BUFFER_SIZE = 10. -/
def MESSAGE_BUFFER_SIZE : Nat := 10

/-- config/config_manager.py line 82: QUESTION_DETECTION_THRESHOLD = 0.7
(available but, per realtime_monitor.py line 145, not applied as a storage
gate). -/
def QUESTION_DETECTION_THRESHOLD : Rat := mkRat 7 10

/-- config/config_manager.py line 83: ANSWER_DETECTION_THRESHOLD = 0.6. -/
def ANSWER_DETECTION_THRESHOLD : Rat := mkRat 6 10

end PipelineConfig

/-- Cluster-history entry appended by update_clustered_question
(realtime_monitor.py lines 289-293): the new occurrence text, user and
timestamp. -/
structure ClusterEntry where
  text : String
  user : String
  timestamp : Int
  deriving DecidableEq, Repr

/-- The question-metadata fields the engine reads or writes
(realtime_monitor.py lines 165-169 and 287-294).  The wall-clock audit
strings detected_at and last_updated are omitted: no code path reads them
back. -/
structure QMetadata where
  question_type : String
  original_text : String
  clustered_questions : List ClusterEntry
  deriving DecidableEq, Repr

/-- A row of the `questions` table (database_manager.py lines 29-40);
`message_ts` carries a UNIQUE constraint. -/
structure QuestionRow where
  id : Nat
  text : String
  user_id : String
  user_name : String
  channel_id : String
  timestamp : Int
  message_ts : String
  confidence_score : Rat
  metadata : QMetadata
  deriving DecidableEq, Repr

/-- A row of the `answers` table (database_manager.py lines 43-56);
`message_ts` carries a UNIQUE constraint and `question_id` is nullable. -/
structure AnswerRow where
  id : Nat
  question_id : Option Nat
  text : String
  user_id : String
  user_name : String
  channel_id : String
  timestamp : Int
  message_ts : String
  confidence_score : Rat
  deriving DecidableEq, Repr

/-- A row of the `qa_pairs` table (database_manager.py lines 59-71);
UNIQUE(question, answer, channel). -/
structure QAPairRow where
  question : String
  answer : String
  question_user : String
  answer_user : String
  channel : String
  timestamp : Int
  confidence_score : Rat
  deriving DecidableEq, Repr

/-- A row of the `processed_messages` ledger (database_manager.py lines
74-79); `message_ts` carries a UNIQUE constraint. -/
structure ProcessedRow where
  message_ts : String
  channel_id : String
  deriving DecidableEq, Repr

/-- The persistent store: the four tables plus the AUTOINCREMENT
sequences of `questions` and `answers` (SQLite AUTOINCREMENT hands out
strictly increasing ids and never reuses one, even after a REPLACE
deletes the previous holder). -/
structure Store where
  questions : List QuestionRow
  answers : List AnswerRow
  qa_pairs : List QAPairRow
  processed : List ProcessedRow
  next_question_id : Nat
  next_answer_id : Nat
  deriving DecidableEq, Repr

/-- A fresh database: empty tables, both sequences starting at 1. -/
def Store.empty : Store :=
  { questions := [], answers := [], qa_pairs := [], processed := [],
    next_question_id := 1, next_answer_id := 1 }

/-- Input to store_question, as assembled by the correlator
(realtime_monitor.py lines 157-170). -/
structure QuestionPayload where
  text : String
  user_id : String
  user_name : String
  channel_id : String
  timestamp : Int
  message_ts : String
  confidence_score : Rat
  metadata : QMetadata
  deriving DecidableEq, Repr

/-- Input to store_answer (realtime_monitor.py lines 214-227).  The
metadata blob written there is never read back and is omitted. -/
structure AnswerPayload where
  text : String
  user_id : String
  user_name : String
  channel_id : String
  timestamp : Int
  message_ts : String
  confidence_score : Rat
  deriving DecidableEq, Repr

/-- Input to store_qa_pair (realtime_monitor.py lines 233-241). -/
structure QAPairPayload where
  question : String
  answer : String
  question_user : String
  answer_user : String
  channel : String
  timestamp : Int
  confidence_score : Rat
  deriving DecidableEq, Repr

namespace DatabaseManager

/-- database_manager.py lines 111-129, store_question: an
INSERT OR REPLACE keyed on the UNIQUE `message_ts` column.  SQLite
REPLACE first deletes any row that conflicts on `message_ts`, then
inserts a fresh row; the id column is not supplied, so AUTOINCREMENT
assigns the next value of the sequence, and `cursor.lastrowid` — the
returned value — is that fresh id. -/
def store_question (s : Store) (p : QuestionPayload) : Store × Nat :=
  let fresh : Nat := s.next_question_id
  let row : QuestionRow :=
    { id := fresh, text := p.text, user_id := p.user_id,
      user_name := p.user_name, channel_id := p.channel_id,
      timestamp := p.timestamp, message_ts := p.message_ts,
      confidence_score := p.confidence_score, metadata := p.metadata }
  ({ s with
      questions :=
        (s.questions.filter (fun r => r.message_ts ≠ p.message_ts)) ++ [row],
      next_question_id := fresh + 1 },
   fresh)

/-- database_manager.py lines 131-150, store_answer: the same
INSERT OR REPLACE pattern on the `answers` table, keyed on its UNIQUE
`message_ts` column, with an optional owning question id. -/
def store_answer (s : Store) (p : AnswerPayload) (question_id : Option Nat) :
    Store × Nat :=
  let fresh : Nat := s.next_answer_id
  let row : AnswerRow :=
    { id := fresh, question_id := question_id, text := p.text,
      user_id := p.user_id, user_name := p.user_name,
      channel_id := p.channel_id, timestamp := p.timestamp,
      message_ts := p.message_ts, confidence_score := p.confidence_score }
  ({ s with
      answers :=
        (s.answers.filter (fun r => r.message_ts ≠ p.message_ts)) ++ [row],
      next_answer_id := fresh + 1 },
   fresh)

/-- database_manager.py lines 91-109, store_qa_pair: INSERT OR IGNORE
with UNIQUE(question, answer, channel) — a duplicate triple leaves the
table unchanged. -/
def store_qa_pair (s : Store) (p : QAPairPayload) : Store :=
  if s.qa_pairs.any (fun r =>
      r.question = p.question ∧ r.answer = p.answer ∧ r.channel = p.channel)
  then s
  else
    { s with
        qa_pairs := s.qa_pairs ++
          [{ question := p.question, answer := p.answer,
             question_user := p.question_user, answer_user := p.answer_user,
             channel := p.channel, timestamp := p.timestamp,
             confidence_score := p.confidence_score }] }

/-- database_manager.py lines 181-186, is_message_processed: a point
query on the ledger. -/
def is_message_processed (s : Store) (message_ts : String) : Bool :=
  s.processed.any (fun r => r.message_ts = message_ts)

/-- database_manager.py lines 188-195, mark_message_processed: INSERT OR
IGNORE keyed on the UNIQUE `message_ts` column. -/
def mark_message_processed (s : Store) (message_ts channel_id : String) :
    Store :=
  if s.processed.any (fun r => r.message_ts = message_ts) then s
  else { s with processed := s.processed ++ [⟨message_ts, channel_id⟩] }

/-- A question row is open when no answer row links to it: the SQL
LEFT JOIN answers a ON q.id = a.question_id .. WHERE a.id IS NULL
(database_manager.py lines 160-164). -/
def isOpen (s : Store) (q : QuestionRow) : Bool :=
  ¬ s.answers.any (fun a => a.question_id = some q.id)

/-- Newest-first comparison used by ORDER BY q.timestamp DESC. -/
def newerEq (a b : QuestionRow) : Prop := b.timestamp ≤ a.timestamp

instance : DecidableRel newerEq := fun a b => by
  unfold newerEq; infer_instance

instance : IsTotal QuestionRow newerEq :=
  ⟨fun a b => le_total b.timestamp a.timestamp⟩

instance : IsTrans QuestionRow newerEq :=
  ⟨fun _ _ _ h1 h2 => le_trans h2 h1⟩

/-- database_manager.py lines 152-179, find_recent_questions.  The first
statement is
cutoff_time = (datetime.now() - timedelta(hours=hours)).isoformat();
when the caller passes hours=None (as realtime_monitor.py line 188
does), timedelta(hours=None) raises TypeError before the query runs.
With an integer bound the query returns the open questions of the
channel newer than the cutoff, newest first. -/
def find_recent_questions (s : Store) (channel_id : String)
    (hours : Option Int) (now : Int) : Except PyErr (List QuestionRow) :=
  match hours with
  | none => Except.error PyErr.typeError
  | some h =>
      let cutoff : Int := now - h
      Except.ok <|
        List.insertionSort newerEq <|
          s.questions.filter (fun q =>
            q.channel_id = channel_id ∧ cutoff < q.timestamp ∧ isOpen s q)

end DatabaseManager

namespace ProductionDatabase

/-- production_database.py lines 472-579, find_recent_questions of the
alternative backend: identical SELECT, but hours=None is handled by a
dedicated branch with no time predicate — every open question of the
channel, newest first. -/
def find_recent_questions (s : Store) (channel_id : String)
    (hours : Option Int) (now : Int) : List QuestionRow :=
  match hours with
  | none =>
      List.insertionSort DatabaseManager.newerEq <|
        s.questions.filter (fun q =>
          q.channel_id = channel_id ∧ DatabaseManager.isOpen s q)
  | some h =>
      let cutoff : Int := now - h
      List.insertionSort DatabaseManager.newerEq <|
        s.questions.filter (fun q =>
          q.channel_id = channel_id ∧ cutoff < q.timestamp ∧
            DatabaseManager.isOpen s q)

/-- production_database.py lines 600-636, _store_question_postgres:
INSERT .. ON CONFLICT (message_ts) DO NOTHING RETURNING id.  When a row
with the same message_ts already exists the insert is suppressed,
RETURNING produces no row, and the function returns None; otherwise the
fresh id. -/
def store_question_postgres (s : Store) (p : QuestionPayload) :
    Store × Option Nat :=
  if s.questions.any (fun r => r.message_ts = p.message_ts) then (s, none)
  else
    let fresh : Nat := s.next_question_id
    ({ s with
        questions := s.questions ++
          [{ id := fresh, text := p.text, user_id := p.user_id,
             user_name := p.user_name, channel_id := p.channel_id,
             timestamp := p.timestamp, message_ts := p.message_ts,
             confidence_score := p.confidence_score, metadata := p.metadata }],
        next_question_id := fresh + 1 },
     some fresh)

end ProductionDatabase

/-!
Oracle adapter (src/core/openai_analyzer.py).  Each analyzer method sends
a prompt, strips markdown fences and runs json.loads on the body.  We
model the raw outcome of one call as `OracleReply α`: the transport
raised (`failure`, the outer `except Exception`), the body failed to
parse (`nonJson`, the `except json.JSONDecodeError`), or it parsed into
an object of shape `α` whose fields may individually be missing.
-/

/-- Outcome of one raw Oracle transport call. -/
inductive OracleReply (α : Type) where
  | failure
  | nonJson
  | json (val : α)
  deriving DecidableEq, Repr

/-- Parsed body shape for is_question
(openai_analyzer.py line 84): each field may be absent. -/
structure QuestionJson where
  is_question : Option Bool
  confidence : Option Rat
  question_type : Option String
  deriving DecidableEq, Repr

/-- Parsed body shape for is_answer_to_question
(openai_analyzer.py line 131). -/
structure AnswerJson where
  is_answer : Option Bool
  confidence : Option Rat
  answer_quality : Option String
  deriving DecidableEq, Repr

/-- Parsed body shape for find_similar_question (openai_analyzer.py line
179).  question_id may be absent (outer none) or present-but-null
(some none). -/
structure SimilarJson where
  is_similar : Option Bool
  similarity_score : Option Rat
  question_id : Option (Option Nat)
  deriving DecidableEq, Repr

/-- Parsed body shape for generalize_questions
(openai_analyzer.py line 225). -/
structure GeneralizeJson where
  generalized_text : Option String
  covers_both : Option Bool
  deriving DecidableEq, Repr

namespace OpenAIAnalyzer

/-- openai_analyzer.py lines 67-110, is_question: a transport failure or
a non-JSON body yields the fixed negative classification; a parsed body
is returned as-is, unvalidated. -/
def is_question (reply : OracleReply QuestionJson) : QuestionJson :=
  match reply with
  | OracleReply.failure => ⟨some false, some 0, some "none"⟩
  | OracleReply.nonJson => ⟨some false, some 0, some "none"⟩
  | OracleReply.json j => j

/-- openai_analyzer.py lines 112-157, is_answer_to_question: same
fallback scheme with the negative answer classification. -/
def is_answer_to_question (reply : OracleReply AnswerJson) : AnswerJson :=
  match reply with
  | OracleReply.failure => ⟨some false, some 0, some "irrelevant"⟩
  | OracleReply.nonJson => ⟨some false, some 0, some "irrelevant"⟩
  | OracleReply.json j => j

/-- openai_analyzer.py lines 159-207, find_similar_question: the prompt
lists only the first 10 candidate questions (the caller applies that cap
before the transport call reaches the oracle); the fallback carries a
present-but-null question_id. -/
def find_similar_question (reply : OracleReply SimilarJson) : SimilarJson :=
  match reply with
  | OracleReply.failure => ⟨some false, some 0, some none⟩
  | OracleReply.nonJson => ⟨some false, some 0, some none⟩
  | OracleReply.json j => j

/-- openai_analyzer.py lines 209-251, generalize_questions: the fallback
returns the original question text as the generalized text. -/
def generalize_questions (original_question : String)
    (reply : OracleReply GeneralizeJson) : GeneralizeJson :=
  match reply with
  | OracleReply.failure => ⟨some original_question, some false⟩
  | OracleReply.nonJson => ⟨some original_question, some false⟩
  | OracleReply.json j => j

end OpenAIAnalyzer

/-- The classifier Oracle as a black box: what each transport call
returns, as a function of exactly the data the prompt carries.
sim_reply receives the candidate list already capped to the 10 most
recent (id and text appear in the prompt); a_reply receives the question
text, the candidate answer text and the rendered context string. -/
structure Oracle where
  q_reply : String → OracleReply QuestionJson
  a_reply : String → String → String → OracleReply AnswerJson
  sim_reply : String → List (Nat × String) → OracleReply SimilarJson
  gen_reply : String → String → OracleReply GeneralizeJson

/-- A queued message, as assembled by handle_message_event
(realtime_monitor.py lines 89-95): the raw fields plus the timestamp
parsed from the ts string. -/
structure Msg where
  channel_id : String
  user_id : String
  text : String
  ts : String
  timestamp : Int
  deriving DecidableEq, Repr

namespace RealtimeQAMonitor

/-- Append to one bounded per-channel context buffer: a deque with
maxlen MESSAGE_BUFFER_SIZE drops its oldest element once full
(realtime_monitor.py lines 43-45 and 137). -/
def pushBuffer (buf : List Msg) (m : Msg) : List Msg :=
  let b := buf ++ [m]
  if PipelineConfig.MESSAGE_BUFFER_SIZE < b.length
  then b.drop (b.length - PipelineConfig.MESSAGE_BUFFER_SIZE)
  else b

/-- realtime_monitor.py lines 195-199: the context string is the last 5
buffered messages rendered as `user: text` lines joined by newlines,
with user ids resolved through get_user_name. -/
def contextText (userName : String → String) (buf : List Msg) : String :=
  String.intercalate "\n"
    ((buf.drop (buf.length - 5)).map
      (fun m => userName m.user_id ++ ": " ++ m.text))

/-- realtime_monitor.py lines 248-270, find_similar_question: fetch the
open questions of the channel over the 72-hour clustering lookback, cap
to the 10 most recent for the prompt, and accept the oracle match only
when is_similar holds and the similarity score is at least 0.8.  The
question_id subscript access of line 265 sits inside the try/except of
lines 256-268, so a missing field falls through to None rather than
raising, and a present-but-null field returns None directly. -/
def find_similar_question (oracle : Oracle) (s : Store)
    (channel_id question_text : String) (now : Int) : Option Nat :=
  match DatabaseManager.find_recent_questions s channel_id (some 72) now with
  | Except.error _ => none
  | Except.ok existing =>
      if existing.isEmpty then none
      else
        let j := OpenAIAnalyzer.find_similar_question
          (oracle.sim_reply question_text
            ((existing.take 10).map (fun q => (q.id, q.text))))
        if j.is_similar.getD false then
          if mkRat 8 10 ≤ j.similarity_score.getD 0 then
            match j.question_id with
            | none => none
            | some v => v
          else none
        else none

/-- realtime_monitor.py lines 272-304, update_clustered_question.  The
body opens with
existing_question = self.db_manager.get_question_by_id(question_id),
but `DatabaseManager` (src/database/database_manager.py) defines no
method of that name, so Python attribute lookup raises AttributeError
before any other statement of the body runs; the enclosing
`except Exception` of lines 303-304 swallows it and the function
returns having mutated nothing.  (Had the lookup succeeded, the later
self.db_manager.update_question call of line 296 is equally undefined,
so no store mutation is reachable either way.) -/
def get_question_by_id (_s : Store) (_question_id : Nat) :
    Except PyErr (Option QuestionRow) :=
  Except.error PyErr.attributeError

/-- The observable store effect of update_clustered_question: identity,
because its first statement raises AttributeError (see
get_question_by_id above) and the except clause swallows the error. -/
def update_clustered_question (s : Store) (question_id : Nat) : Store :=
  match get_question_by_id s question_id with
  | Except.ok _ => s
  | Except.error _ => s

/-- realtime_monitor.py lines 201-246: the loop of check_for_answers over
the fetched open questions.  For each question the oracle is consulted;
a link happens when analysis.get(is_answer, False) holds and
analysis.get(confidence, 0) meets the answer threshold (inclusive ≥,
line 208) — when the confidence field is absent the default 0 fails the
0.6 threshold, so inside the linked branch the field is present and the
subscript accesses of lines 210, 221 and 240 equal the defaulted read.
A link stores an Answer row bound to the question id and then a QAPair
whose confidence is the minimum of the question score and the answer
confidence (line 240).  There is no break: the loop continues through
every fetched question. -/
def answerCheckLoop (oracle : Oracle) (userName : String → String)
    (context : String) (m : Msg) (user_name : String)
    (s : Store) (questions : List QuestionRow) : Store :=
  match questions with
  | [] => s
  | q :: rest =>
      let analysis := OpenAIAnalyzer.is_answer_to_question
        (oracle.a_reply q.text m.text context)
      let s1 :=
        if analysis.is_answer.getD false ∧
            PipelineConfig.ANSWER_DETECTION_THRESHOLD ≤
              analysis.confidence.getD 0 then
          let conf := analysis.confidence.getD 0
          let afterAnswer :=
            (DatabaseManager.store_answer s
              { text := m.text, user_id := m.user_id, user_name := user_name,
                channel_id := m.channel_id, timestamp := m.timestamp,
                message_ts := m.ts, confidence_score := conf }
              (some q.id)).1
          DatabaseManager.store_qa_pair afterAnswer
            { question := q.text, answer := m.text,
              question_user := q.user_name, answer_user := user_name,
              channel := m.channel_id, timestamp := m.timestamp,
              confidence_score := min q.confidence_score conf }
        else s
      answerCheckLoop oracle userName context m user_name s1 rest

/-- realtime_monitor.py lines 178-246, check_for_answers.  Its first
store access is find_recent_questions(channel_id, hours=None) on the
`DatabaseManager` backend, which raises TypeError (timedelta with a None
hours component) before any question is fetched; the raise escapes this
function, so the returned pair carries the untouched store and the
error.  The fetch-succeeded branches embed the rest of the source: an
empty fetch returns immediately, otherwise the context string is built
from the channel buffer and the loop above runs. -/
def check_for_answers (oracle : Oracle) (userName : String → String)
    (s : Store) (buf : List Msg) (m : Msg) (user_name : String)
    (now : Int) : Store × Option PyErr :=
  match DatabaseManager.find_recent_questions s m.channel_id none now with
  | Except.error e => (s, some e)
  | Except.ok recent =>
      if recent.isEmpty then (s, none)
      else
        let context := contextText userName buf
        (answerCheckLoop oracle userName context m user_name s recent, none)

/-- realtime_monitor.py lines 141-173: the question branch of
process_single_message.  When the analyzer result has is_question set
(read with .get and default False, line 144), line 147 prints an
f-string that subscripts the confidence field — a KeyError escapes if
the field is absent.  Otherwise the clustering probe runs; a truthy
similar id (None and 0 are falsy) routes to update_clustered_question,
anything else stores a new question row with the analyzer confidence
and metadata recording the question type (defaulted to unknown) and the
original text. -/
def handleQuestionPart (oracle : Oracle) (s : Store) (m : Msg)
    (user_name : String) (now : Int) : Store × Option PyErr :=
  let qa := OpenAIAnalyzer.is_question (oracle.q_reply m.text)
  if qa.is_question.getD false then
    match pyIndex qa.confidence with
    | Except.error e => (s, some e)
    | Except.ok conf =>
        let similar := find_similar_question oracle s m.channel_id m.text now
        match similar with
        | some qid =>
            if qid = 0 then
              ((DatabaseManager.store_question s
                { text := m.text, user_id := m.user_id,
                  user_name := user_name, channel_id := m.channel_id,
                  timestamp := m.timestamp, message_ts := m.ts,
                  confidence_score := conf,
                  metadata :=
                    { question_type := qa.question_type.getD "unknown",
                      original_text := m.text,
                      clustered_questions := [] } }).1, none)
            else (update_clustered_question s qid, none)
        | none =>
            ((DatabaseManager.store_question s
              { text := m.text, user_id := m.user_id,
                user_name := user_name, channel_id := m.channel_id,
                timestamp := m.timestamp, message_ts := m.ts,
                confidence_score := conf,
                metadata :=
                  { question_type := qa.question_type.getD "unknown",
                    original_text := m.text,
                    clustered_questions := [] } }).1, none)
  else (s, none)

/-- Correlator state: the store plus the in-memory per-channel context
buffers (realtime_monitor.py lines 42-45).  The user-name cache only
affects display names and is abstracted as the userName environment. -/
structure MonState where
  store : Store
  buffers : String → List Msg

/-- realtime_monitor.py lines 125-176, process_single_message: resolve
the user name, push the message onto its channel buffer, run the
question branch, then always run check_for_answers.  A raise at any
point escapes with the mutations already committed. -/
def process_single_message (oracle : Oracle) (userName : String → String)
    (st : MonState) (m : Msg) (now : Int) : MonState × Option PyErr :=
  let user_name := userName m.user_id
  let buf := pushBuffer (st.buffers m.channel_id) m
  let st1 : MonState :=
    { store := st.store,
      buffers := fun c => if c = m.channel_id then buf else st.buffers c }
  match handleQuestionPart oracle st1.store m user_name now with
  | (s, some e) => ({ st1 with store := s }, some e)
  | (s, none) =>
      let (s2, err) := check_for_answers oracle userName s buf m user_name now
      ({ st1 with store := s2 }, err)

/-- realtime_monitor.py lines 104-123: one dequeued message of
process_message_queue.  The idempotency gate is_message_processed runs
before any classification; only when it reports false does
process_single_message run, and only when that returns without raising
does mark_message_processed write the ledger entry (the enclosing
try/except catches a raise after the fact, so a raise skips the ledger
write but keeps the mutations already committed). -/
def processQueueStep (oracle : Oracle) (userName : String → String)
    (st : MonState) (m : Msg) (now : Int) : MonState :=
  if DatabaseManager.is_message_processed st.store m.ts then st
  else
    match process_single_message oracle userName st m now with
    | (st1, none) =>
        { st1 with
            store := DatabaseManager.mark_message_processed st1.store m.ts
              m.channel_id }
    | (st1, some _) => st1

/-- An incoming Socket Mode request: the request type string and, for
event requests, the event payload fields read by the handler, each
possibly absent (event.get).  The text field models
event.get(text, empty) after .strip(): the whitespace-trimmed string. -/
structure SocketRequest where
  req_type : String
  event_type : Option String
  subtype : Option String
  channel : Option String
  user : Option String
  stripped_text : String
  ts : Option String
  deriving DecidableEq, Repr

/-- Python truthiness of an optional string: None and the empty string
are falsy. -/
def truthyOpt (o : Option String) : Bool :=
  match o with
  | none => false
  | some s => s ≠ ""

/-- realtime_monitor.py lines 75-102, handle_message_event: an
events_api request whose event has type message, no subtype, and truthy
channel, user, stripped text and ts is appended to the processing queue;
every request — enqueued or not — is acknowledged (lines 100-102 sit
outside all the guards).  toTime models
datetime.fromtimestamp(float(ts)) on the ts strings the platform
delivers.  Returns the new queue and the acknowledgement flag. -/
def handle_message_event (toTime : String → Int)
    (queue : List Msg) (req : SocketRequest) : List Msg × Bool :=
  let queue1 :=
    if req.req_type = "events_api" ∧ req.event_type = some "message" ∧
        req.subtype = none then
      match req.channel, req.user, req.ts with
      | some c, some u, some t =>
          if c ≠ "" ∧ u ≠ "" ∧ req.stripped_text ≠ "" ∧ t ≠ "" then
            queue ++ [{ channel_id := c, user_id := u,
                        text := req.stripped_text, ts := t,
                        timestamp := toTime t }]
          else queue
      | _, _, _ => queue
    else queue
  (queue1, true)

end RealtimeQAMonitor

/-!
Shared test fixtures: payloads, rows and oracle stubs used by the
concrete evaluations below.
-/

/-- Metadata of a plain stored question with no cluster history. -/
def metaPlain (origText : String) : QMetadata :=
  { question_type := "direct", original_text := origText,
    clustered_questions := [] }

/-! ### C1 -/

/-- C1: the spec says the answer-matching pass queries the store with an
unbounded lookback (max_age = none) and that the query returns every
open question of the channel, neither restricting by time nor failing
when the bound is absent.  On the code, check_for_answers passes
hours=None to DatabaseManager.find_recent_questions, whose first
statement builds timedelta(hours=None) and raises TypeError, so the
pass aborts with the store untouched before any question is fetched:
the query fails precisely when the lookback bound is absent. -/
theorem unbounded_lookback_fetch_raises :
    (∀ (s : Store) (c : String) (now : Int),
      DatabaseManager.find_recent_questions s c none now =
        Except.error PyErr.typeError) ∧
    (∀ (oracle : Oracle) (userName : String → String) (s : Store)
      (buf : List Msg) (m : Msg) (un : String) (now : Int),
      RealtimeQAMonitor.check_for_answers oracle userName s buf m un now =
        (s, some PyErr.typeError)) :=
  ⟨fun _ _ _ => rfl, fun _ _ _ _ _ _ _ => rfl⟩

/-! ### C2 -/

/-- Oracle stub for the reprocessing scenario: every message is judged a
question with confidence 0.9 and no clustering match is ever reported. -/
def c2Oracle : Oracle :=
  { q_reply := fun _ => OracleReply.json ⟨some true, some (mkRat 9 10), some "direct"⟩,
    a_reply := fun _ _ _ => OracleReply.failure,
    sim_reply := fun _ _ => OracleReply.json ⟨some false, some 0, some none⟩,
    gen_reply := fun _ _ => OracleReply.failure }

/-- The message ingested twice in the reprocessing scenario. -/
def c2Msg : Msg := ⟨"C1", "U1", "How do I deploy?", "100.1", 100⟩

/-- Correlator state after the first processing of c2Msg from a fresh
database. -/
def c2State1 : RealtimeQAMonitor.MonState :=
  RealtimeQAMonitor.processQueueStep c2Oracle (fun _ => "Alice")
    ⟨Store.empty, fun _ => []⟩ c2Msg 100

/-- C2: the spec says processing a message twice leaves the store in the
state produced by processing it once, the ledger entry being written
after classification completes.  On the code the ledger entry is never
written: after the first processing of c2Msg the question row exists
(id 1) but processed_messages is empty, because check_for_answers
raised TypeError before mark_message_processed ran; the second
processing therefore passes the gate, reclassifies, and REPLACEs the
question row under a fresh id 2, so the store after twice differs from
the store after once. -/
theorem processing_twice_differs_from_once :
    c2State1.store.processed = [] ∧
    c2State1.store.questions.map QuestionRow.id = [1] ∧
    (RealtimeQAMonitor.processQueueStep c2Oracle (fun _ => "Alice") c2State1
      c2Msg 100).store.questions.map QuestionRow.id = [2] ∧
    (RealtimeQAMonitor.processQueueStep c2Oracle (fun _ => "Alice") c2State1
      c2Msg 100).store ≠ c2State1.store := by decide

/-! ### C3 -/

/-- First question payload stored under message identity 10.0. -/
def c3P1 : QuestionPayload :=
  ⟨"How do I deploy?", "U1", "Alice", "C", 10, "10.0", mkRat 9 10, metaPlain "How do I deploy?"⟩

/-- Second question payload with the same message identity but different
text. -/
def c3P2 : QuestionPayload :=
  ⟨"How do I deploy this app?", "U1", "Alice", "C", 10, "10.0", mkRat 19 20,
   metaPlain "How do I deploy this app?"⟩

/-- C3 counterexample: the claim says the second store_question call
with the same origin message identity returns the identity of the
existing row, the same identity both times.  On the code the first call
returns 1 and the second returns 2: INSERT OR REPLACE deletes the
existing row and AUTOINCREMENT hands the replacement a fresh id, which
is what cursor.lastrowid reports. -/
theorem store_question_second_call_fresh_id :
    (DatabaseManager.store_question Store.empty c3P1).2 = 1 ∧
    (DatabaseManager.store_question
      (DatabaseManager.store_question Store.empty c3P1).1 c3P2).2 = 2 ∧
    (2 : Nat) ≠ 1 := by decide

/-- After store_question, the rows carrying the stored message identity
are exactly the one fresh row. -/
theorem store_question_filter_inserted (s : Store) (p : QuestionPayload) :
    (DatabaseManager.store_question s p).1.questions.filter
      (fun r => r.message_ts = p.message_ts) =
    [{ id := s.next_question_id, text := p.text, user_id := p.user_id,
       user_name := p.user_name, channel_id := p.channel_id,
       timestamp := p.timestamp, message_ts := p.message_ts,
       confidence_score := p.confidence_score, metadata := p.metadata }] := by
  simp only [DatabaseManager.store_question, List.filter_append]
  rw [List.filter_filter]
  have h1 : s.questions.filter
      (fun a => decide (a.message_ts = p.message_ts) &&
        decide (a.message_ts ≠ p.message_ts)) = [] := by
    rw [List.filter_eq_nil_iff]
    intro a _
    by_cases h : a.message_ts = p.message_ts <;> simp [h]
  rw [h1]
  simp

/-- C3 amended: calling store_question twice with the same origin
message identity neither errors nor duplicates — after the second call
exactly one Question row with that identity exists — but the second
call returns a fresh identity different from the first; the postgres
variant of the sibling backend instead suppresses the insert and
returns no identity at all. -/
theorem store_question_replace_semantics :
    (∀ (s : Store) (p q : QuestionPayload), p.message_ts = q.message_ts →
      ((DatabaseManager.store_question
          (DatabaseManager.store_question s p).1 q).1.questions.filter
        (fun r => r.message_ts = q.message_ts)).length = 1 ∧
      (DatabaseManager.store_question
        (DatabaseManager.store_question s p).1 q).2 ≠
        (DatabaseManager.store_question s p).2) ∧
    (∀ (s : Store) (p : QuestionPayload),
      s.questions.any (fun r => r.message_ts = p.message_ts) = true →
      ProductionDatabase.store_question_postgres s p = (s, none)) := by
  constructor
  · intro s p q _
    constructor
    · rw [store_question_filter_inserted]
      rfl
    · simp only [DatabaseManager.store_question]
      omega
  · intro s p h
    simp [ProductionDatabase.store_question_postgres, h]

/-- C3 amended, witnessed at the concrete payloads: one surviving row
with identity 10.0, a changed return identity, and the postgres variant
returning none on the duplicate. -/
theorem store_question_replace_semantics_witness :
    (((DatabaseManager.store_question
        (DatabaseManager.store_question Store.empty c3P1).1 c3P2).1.questions.filter
      (fun r => r.message_ts = c3P2.message_ts)).length = 1 ∧
     (DatabaseManager.store_question
        (DatabaseManager.store_question Store.empty c3P1).1 c3P2).2 ≠
       (DatabaseManager.store_question Store.empty c3P1).2) ∧
    ProductionDatabase.store_question_postgres
      (DatabaseManager.store_question Store.empty c3P1).1 c3P2 =
      ((DatabaseManager.store_question Store.empty c3P1).1, none) :=
  ⟨store_question_replace_semantics.1 Store.empty c3P1 c3P2 rfl,
   store_question_replace_semantics.2
     (DatabaseManager.store_question Store.empty c3P1).1 c3P2 (by decide)⟩

/-! ### C4 -/

/-- Two distinct open questions in channel C for the multi-answer
scenario. -/
def c4Q1 : QuestionRow :=
  ⟨1, "How do I deploy?", "U1", "Alice", "C", 10, "10.0", mkRat 9 10,
   metaPlain "How do I deploy?"⟩

/-- Second open question of the multi-answer scenario. -/
def c4Q2 : QuestionRow :=
  ⟨2, "How do I configure SSL?", "U1", "Alice", "C", 11, "11.0", mkRat 4 5,
   metaPlain "How do I configure SSL?"⟩

/-- Store holding the two open questions and nothing else. -/
def c4Store : Store := ⟨[c4Q1, c4Q2], [], [], [], 3, 1⟩

/-- Oracle stub that judges the candidate message an answer to every
question with confidence 0.9. -/
def c4Oracle : Oracle :=
  { q_reply := fun _ => OracleReply.failure,
    a_reply := fun _ _ _ => OracleReply.json ⟨some true, some (mkRat 9 10), some "direct"⟩,
    sim_reply := fun _ _ => OracleReply.failure,
    gen_reply := fun _ _ => OracleReply.failure }

/-- The message the Oracle judges to answer both questions. -/
def c4Msg : Msg := ⟨"C", "U2", "Use an HPA resource", "20.0", 20⟩

/-- C4 counterexample: the claim says a single pass in which the Oracle
judges one message to answer two distinct open Questions leaves exactly
two Answer rows for that message, the second link not erasing the
first.  On the code the pass leaves exactly one Answer row: the second
store_answer call REPLACEs the first row, both carrying the same unique
message_ts; only the two QAPair rows both survive. -/
theorem multi_answer_single_answer_row :
    ((RealtimeQAMonitor.answerCheckLoop c4Oracle (fun _ => "Bob") "" c4Msg
        "Bob" c4Store [c4Q1, c4Q2]).answers.filter
      (fun a => a.message_ts = c4Msg.ts)).length = 1 ∧
    ¬ ((RealtimeQAMonitor.answerCheckLoop c4Oracle (fun _ => "Bob") "" c4Msg
        "Bob" c4Store [c4Q1, c4Q2]).answers.filter
      (fun a => a.message_ts = c4Msg.ts)).length = 2 ∧
    ((RealtimeQAMonitor.answerCheckLoop c4Oracle (fun _ => "Bob") "" c4Msg
        "Bob" c4Store [c4Q1, c4Q2]).qa_pairs.filter
      (fun r => r.answer = c4Msg.text)).length = 2 := by decide

/-- One unfolding of the matching loop on a question the Oracle affirms
with confidence at or above the threshold: the Answer link and the
QAPair insert happen and the loop continues on the remaining
questions. -/
theorem answerCheckLoop_cons_match (oracle : Oracle)
    (userName : String → String) (ctx : String) (m : Msg) (un : String)
    (s : Store) (q : QuestionRow) (rest : List QuestionRow) (c : Rat)
    (k : Option String)
    (h : oracle.a_reply q.text m.text ctx =
      OracleReply.json ⟨some true, some c, k⟩)
    (hc : PipelineConfig.ANSWER_DETECTION_THRESHOLD ≤ c) :
    RealtimeQAMonitor.answerCheckLoop oracle userName ctx m un s (q :: rest) =
    RealtimeQAMonitor.answerCheckLoop oracle userName ctx m un
      (DatabaseManager.store_qa_pair
        (DatabaseManager.store_answer s
          ⟨m.text, m.user_id, un, m.channel_id, m.timestamp, m.ts, c⟩
          (some q.id)).1
        ⟨q.text, m.text, q.user_name, un, m.channel_id, m.timestamp,
         min q.confidence_score c⟩) rest := by
  rw [RealtimeQAMonitor.answerCheckLoop, h]
  simp only [OpenAIAnalyzer.is_answer_to_question, Option.getD_some]
  rw [if_pos ⟨trivial, hc⟩]

/-- The matching loop on an empty candidate list returns the store
unchanged. -/
theorem answerCheckLoop_nil (oracle : Oracle) (userName : String → String)
    (ctx : String) (m : Msg) (un : String) (s : Store) :
    RealtimeQAMonitor.answerCheckLoop oracle userName ctx m un s [] = s :=
  rfl

/-- C4 amended: when the Oracle affirms both questions of a two-element
candidate list with confidences at the threshold or above, the loop
does not stop at the first match — it links both, producing one QAPair
row per question — but the Answer rows collapse to the single row of
the second link, which replaced the first because answer rows are
unique per origin message identity. -/
theorem multi_answer_two_qa_pairs_one_answer_row
    (oracle : Oracle) (userName : String → String) (ctx : String)
    (m : Msg) (un : String) (s : Store) (q1 q2 : QuestionRow)
    (c1 c2 : Rat) (k1 k2 : Option String)
    (h1 : oracle.a_reply q1.text m.text ctx =
      OracleReply.json ⟨some true, some c1, k1⟩)
    (h2 : oracle.a_reply q2.text m.text ctx =
      OracleReply.json ⟨some true, some c2, k2⟩)
    (hc1 : PipelineConfig.ANSWER_DETECTION_THRESHOLD ≤ c1)
    (hc2 : PipelineConfig.ANSWER_DETECTION_THRESHOLD ≤ c2)
    (ha : s.answers = []) (hp : s.qa_pairs = [])
    (htext : q1.text ≠ q2.text) :
    (RealtimeQAMonitor.answerCheckLoop oracle userName ctx m un s
        [q1, q2]).answers.map
      (fun a => (a.question_id, a.message_ts, a.confidence_score)) =
      [(some q2.id, m.ts, c2)] ∧
    (RealtimeQAMonitor.answerCheckLoop oracle userName ctx m un s
        [q1, q2]).qa_pairs.map
      (fun r => (r.question, r.answer, r.confidence_score)) =
      [(q1.text, m.text, min q1.confidence_score c1),
       (q2.text, m.text, min q2.confidence_score c2)] := by
  rw [answerCheckLoop_cons_match oracle userName ctx m un s q1 [q2] c1 k1
    h1 hc1]
  rw [answerCheckLoop_cons_match oracle userName ctx m un _ q2 [] c2 k2
    h2 hc2]
  rw [answerCheckLoop_nil]
  simp [DatabaseManager.store_answer, DatabaseManager.store_qa_pair, ha,
    hp, htext]

/-- C4 amended, witnessed on the concrete two-question scenario. -/
theorem multi_answer_two_qa_pairs_one_answer_row_witness :
    (RealtimeQAMonitor.answerCheckLoop c4Oracle (fun _ => "Bob") "" c4Msg
        "Bob" c4Store [c4Q1, c4Q2]).answers.map
      (fun a => (a.question_id, a.message_ts, a.confidence_score)) =
      [(some c4Q2.id, c4Msg.ts, mkRat 9 10)] ∧
    (RealtimeQAMonitor.answerCheckLoop c4Oracle (fun _ => "Bob") "" c4Msg
        "Bob" c4Store [c4Q1, c4Q2]).qa_pairs.map
      (fun r => (r.question, r.answer, r.confidence_score)) =
      [(c4Q1.text, c4Msg.text, min c4Q1.confidence_score (mkRat 9 10)),
       (c4Q2.text, c4Msg.text, min c4Q2.confidence_score (mkRat 9 10))] :=
  multi_answer_two_qa_pairs_one_answer_row c4Oracle (fun _ => "Bob") ""
    c4Msg "Bob" c4Store c4Q1 c4Q2 (mkRat 9 10) (mkRat 9 10) (some "direct") (some "direct")
    rfl rfl (by decide) (by decide) rfl rfl (by decide)

/-! ### C5 -/

/-- The pre-existing open question of the clustering scenario. -/
def c5Q : QuestionRow :=
  ⟨1, "How do I deploy?", "U1", "Alice", "C", 10, "10.0", mkRat 9 10,
   metaPlain "How do I deploy?"⟩

/-- Store holding only the pre-existing question. -/
def c5Store : Store := ⟨[c5Q], [], [], [], 2, 1⟩

/-- Oracle stub for the clustering scenario: the new message is a
question, similar to question 1 with score 0.9, and the generalizer
offers a covering text. -/
def c5Oracle : Oracle :=
  { q_reply := fun _ => OracleReply.json ⟨some true, some (mkRat 17 20), some "direct"⟩,
    a_reply := fun _ _ _ => OracleReply.failure,
    sim_reply := fun _ _ => OracleReply.json ⟨some true, some (mkRat 9 10), some (some 1)⟩,
    gen_reply := fun _ _ =>
      OracleReply.json ⟨some "How do I deploy applications?", some true⟩ }

/-- The new similar question message. -/
def c5Msg : Msg := ⟨"C", "U2", "How to deploy the app?", "20.0", 20⟩

/-- C5: the claim says a new question matching an existing open Question
with similarity at least 0.8 overwrites that row with the generalized
text and appends an occurrence record to its cluster history.  On the
code neither happens: update_clustered_question opens by calling
get_question_by_id, a method the store class does not define, so
AttributeError is raised and swallowed and the row keeps its old text
and empty cluster history (the half of the claim that does hold: no new
Question row is created either). -/
theorem clustering_update_never_persists :
    RealtimeQAMonitor.get_question_by_id c5Store 1 =
      Except.error PyErr.attributeError ∧
    (RealtimeQAMonitor.process_single_message c5Oracle (fun _ => "Bob")
      ⟨c5Store, fun _ => []⟩ c5Msg 20).1.store.questions = [c5Q] ∧
    RealtimeQAMonitor.find_similar_question c5Oracle c5Store "C"
      c5Msg.text 20 = some 1 :=
  ⟨rfl, by decide, by decide⟩

/-! ### C6 -/

/-- The open question awaiting closure in channel devops. -/
def c6Q : QuestionRow :=
  ⟨1, "How do I set up autoscaling?", "U1", "Alice", "devops", 10, "10.0",
   mkRat 4 5, metaPlain "How do I set up autoscaling?"⟩

/-- Store holding only the open question. -/
def c6Store : Store := ⟨[c6Q], [], [], [], 2, 1⟩

/-- Oracle stub: the later message is not a question but answers the
open question with confidence 0.95, above the 0.6 threshold. -/
def c6Oracle : Oracle :=
  { q_reply := fun _ => OracleReply.json ⟨some false, some (mkRat 1 10), some "none"⟩,
    a_reply := fun _ _ _ => OracleReply.json ⟨some true, some (mkRat 19 20), some "direct"⟩,
    sim_reply := fun _ _ => OracleReply.failure,
    gen_reply := fun _ _ => OracleReply.failure }

/-- The candidate answer message. -/
def c6Msg : Msg := ⟨"devops", "U2", "Use an HPA resource", "20.0", 20⟩

/-- C6: the claim says that after processing a message the Oracle judges
an answer with confidence at or above the threshold, the question is no
longer open and exactly one Answer and one QAPair exist.  On the code
the processing pass raises TypeError at the unbounded open-question
fetch before the matching loop can run: the store is left exactly as it
was — no Answer, no QAPair, the question still open under the unbounded
open-question query of the sibling backend — and the ledger entry is
not written. -/
theorem answer_closure_never_happens :
    (RealtimeQAMonitor.process_single_message c6Oracle (fun _ => "Bob")
      ⟨c6Store, fun _ => []⟩ c6Msg 20).2 = some PyErr.typeError ∧
    (RealtimeQAMonitor.processQueueStep c6Oracle (fun _ => "Bob")
      ⟨c6Store, fun _ => []⟩ c6Msg 20).store = c6Store ∧
    ProductionDatabase.find_recent_questions c6Store "devops" none 20 =
      [c6Q] := by decide

/-! ### C7 -/

/-- Oracle stub whose question classifier parses to a JSON object that
asserts is_question true but carries no confidence field. -/
def c7Oracle : Oracle :=
  { q_reply := fun _ => OracleReply.json ⟨some true, none, none⟩,
    a_reply := fun _ _ _ => OracleReply.failure,
    sim_reply := fun _ _ => OracleReply.failure,
    gen_reply := fun _ _ => OracleReply.failure }

/-- The message processed under the malformed classifier response. -/
def c7Msg : Msg := ⟨"C", "U1", "Can someone help?", "30.0", 30⟩

/-- C7 counterexample: the claim says every malformed Oracle response
(non-JSON or missing fields) is caught locally and treated as a
negative classification, with no exception propagating to the
message-handling caller and the ledger write not blocked.  On the code
a parsed response asserting is_question true with no confidence field
raises KeyError at the subscript in the question branch; the error
escapes process_single_message and the ledger entry is never written. -/
theorem missing_confidence_field_raises :
    (RealtimeQAMonitor.process_single_message c7Oracle (fun _ => "A")
      ⟨Store.empty, fun _ => []⟩ c7Msg 30).2 = some PyErr.keyError ∧
    (RealtimeQAMonitor.processQueueStep c7Oracle (fun _ => "A")
      ⟨Store.empty, fun _ => []⟩ c7Msg 30).store.processed = [] := by decide

/-- C7 amended: a transport failure or a non-JSON body on either
real-time classifier call is caught locally and yields the fixed
negative classification with confidence 0, and under such a question
reply the question branch neither raises nor touches the store; only a
parsed response asserting is_question true without a confidence field
escapes (see the counterexample). -/
theorem oracle_failure_negative_classification
    (rq : OracleReply QuestionJson) (ra : OracleReply AnswerJson)
    (hq : rq = OracleReply.failure ∨ rq = OracleReply.nonJson)
    (ha : ra = OracleReply.failure ∨ ra = OracleReply.nonJson) :
    OpenAIAnalyzer.is_question rq = ⟨some false, some 0, some "none"⟩ ∧
    OpenAIAnalyzer.is_answer_to_question ra =
      ⟨some false, some 0, some "irrelevant"⟩ ∧
    (∀ (oracle : Oracle) (s : Store) (m : Msg) (un : String) (now : Int),
      oracle.q_reply m.text = rq →
      RealtimeQAMonitor.handleQuestionPart oracle s m un now = (s, none)) := by
  refine ⟨?_, ?_, ?_⟩
  · rcases hq with h | h <;> rw [h] <;> rfl
  · rcases ha with h | h <;> rw [h] <;> rfl
  · intro oracle s m un now hqr
    rcases hq with h | h <;> rw [h] at hqr <;>
      simp [RealtimeQAMonitor.handleQuestionPart, hqr,
        OpenAIAnalyzer.is_question]

/-- Oracle stub whose every transport call fails. -/
def c7FailOracle : Oracle :=
  { q_reply := fun _ => OracleReply.failure,
    a_reply := fun _ _ _ => OracleReply.failure,
    sim_reply := fun _ _ => OracleReply.failure,
    gen_reply := fun _ _ => OracleReply.failure }

/-- C7 amended witnessed: with every transport call failing, the
classifiers return the negative defaults and the question branch leaves
a fresh store untouched without raising. -/
theorem oracle_failure_negative_classification_witness :
    OpenAIAnalyzer.is_question OracleReply.failure =
      ⟨some false, some 0, some "none"⟩ ∧
    OpenAIAnalyzer.is_answer_to_question OracleReply.failure =
      ⟨some false, some 0, some "irrelevant"⟩ ∧
    RealtimeQAMonitor.handleQuestionPart c7FailOracle Store.empty c7Msg
      "A" 30 = (Store.empty, none) :=
  have h := oracle_failure_negative_classification OracleReply.failure
    OracleReply.failure (Or.inl rfl) (Or.inl rfl)
  ⟨h.1, h.2.1, h.2.2 c7FailOracle Store.empty c7Msg "A" 30 rfl⟩

/-! ### C8 -/

/-- The message of the self-link scenario: it is both stored as a
question and offered as a candidate answer. -/
def c8Msg : Msg := ⟨"C", "U1", "How do I deploy? Use make deploy.", "40.0", 40⟩

/-- The question payload the correlator builds from c8Msg. -/
def c8Payload : QuestionPayload :=
  ⟨c8Msg.text, c8Msg.user_id, "Alice", c8Msg.channel_id, c8Msg.timestamp,
   c8Msg.ts, mkRat 4 5, metaPlain c8Msg.text⟩

/-- Store state right after the question branch stored c8Msg as a
question. -/
def c8Store : Store := (DatabaseManager.store_question Store.empty c8Payload).1

/-- Oracle stub that judges c8Msg an answer to every question with
confidence 0.7. -/
def c8Oracle : Oracle :=
  { q_reply := fun _ => OracleReply.failure,
    a_reply := fun _ _ _ => OracleReply.json ⟨some true, some (mkRat 7 10), some "partial"⟩,
    sim_reply := fun _ _ => OracleReply.failure,
    gen_reply := fun _ _ => OracleReply.failure }

/-- C8 counterexample: the claim says the answer-matching pass of the
message that was just stored as a Question considers only other open
Questions, never linking the message as an Answer to the Question
created from itself.  On the code the open-question query has no such
exclusion — after storing the question from c8Msg, the unbounded
open-question fetch of the sibling backend returns exactly that
question as a candidate — and the matching loop then links c8Msg as an
Answer to its own Question once the Oracle affirms it. -/
theorem message_links_to_own_question :
    (ProductionDatabase.find_recent_questions c8Store "C" none 40).map
      (fun q => q.message_ts) = [c8Msg.ts] ∧
    (RealtimeQAMonitor.answerCheckLoop c8Oracle (fun _ => "A") "" c8Msg "A"
        c8Store
        (ProductionDatabase.find_recent_questions c8Store "C" none 40)).answers.map
      (fun a => (a.question_id, a.message_ts)) = [(some 1, c8Msg.ts)] := by
  decide

/-- C8 amended: every open question of the channel is among the
candidates of the unbounded open-question query — including one whose
origin message identity is the processed message itself — and on a
candidate list consisting of that own question the matching loop links
the message as an Answer to it whenever the Oracle affirms with
confidence at or above the threshold: the code has no self-link
guard.  (On the store class the monitor actually binds, the pass
aborts at the fetch before any linking; see the unbounded-lookback
theorem.) -/
theorem no_self_link_guard :
    (∀ (s : Store) (c : String) (now : Int) (q : QuestionRow),
      q ∈ s.questions → q.channel_id = c →
      DatabaseManager.isOpen s q = true →
      q ∈ ProductionDatabase.find_recent_questions s c none now) ∧
    (∀ (oracle : Oracle) (userName : String → String) (ctx : String)
      (m : Msg) (un : String) (s : Store) (q : QuestionRow) (c : Rat)
      (k : Option String),
      q.message_ts = m.ts →
      oracle.a_reply q.text m.text ctx =
        OracleReply.json ⟨some true, some c, k⟩ →
      PipelineConfig.ANSWER_DETECTION_THRESHOLD ≤ c →
      ∃ a ∈ (RealtimeQAMonitor.answerCheckLoop oracle userName ctx m un s
          [q]).answers,
        a.question_id = some q.id ∧ a.message_ts = m.ts) := by
  constructor
  · intro s c now q hmem hch hopen
    have hperm := List.perm_insertionSort DatabaseManager.newerEq
      (s.questions.filter (fun q =>
        q.channel_id = c ∧ DatabaseManager.isOpen s q))
    simp only [ProductionDatabase.find_recent_questions]
    rw [hperm.mem_iff, List.mem_filter]
    refine ⟨hmem, ?_⟩
    simp [hch, hopen]
  · intro oracle userName ctx m un s q c k hts hr hc
    rw [answerCheckLoop_cons_match oracle userName ctx m un s q [] c k hr hc,
      answerCheckLoop_nil]
    refine ⟨⟨s.next_answer_id, some q.id, m.text, m.user_id, un,
      m.channel_id, m.timestamp, m.ts, c⟩, ?_, rfl, rfl⟩
    simp [DatabaseManager.store_qa_pair, DatabaseManager.store_answer]
    split <;> simp

/-- The single question row of the self-link scenario, as created by
store_question from c8Payload. -/
def c8Q : QuestionRow :=
  ⟨1, c8Msg.text, c8Msg.user_id, "Alice", c8Msg.channel_id,
   c8Msg.timestamp, c8Msg.ts, mkRat 4 5, metaPlain c8Msg.text⟩

/-- C8 amended witnessed on the concrete self-link scenario: the
question stored from c8Msg is itself a candidate of the unbounded
query, and the loop on that sole candidate links c8Msg to it. -/
theorem no_self_link_guard_witness :
    (c8Q ∈ ProductionDatabase.find_recent_questions c8Store "C" none 40) ∧
    (∃ a ∈ (RealtimeQAMonitor.answerCheckLoop c8Oracle (fun _ => "A") ""
        c8Msg "A" c8Store [c8Q]).answers,
      a.question_id = some c8Q.id ∧ a.message_ts = c8Msg.ts) :=
  ⟨no_self_link_guard.1 c8Store "C" 40 c8Q (by decide) rfl (by decide),
   no_self_link_guard.2 c8Oracle (fun _ => "A") "" c8Msg "A" c8Store c8Q
     (mkRat 7 10) (some "partial") rfl rfl (by decide)⟩

/-! ### C9 -/

/-- One store_question call preserves the per-identity row bound: if at
most one question row carries a given message identity before the call,
the same holds after it — REPLACE removes every row carrying the
inserted identity and appends a single fresh one, leaving the other
identities on a sublist of the previous table. -/
theorem store_question_preserves_unique (s : Store) (p : QuestionPayload)
    (ts : String)
    (h : (s.questions.filter (fun q => q.message_ts = ts)).length ≤ 1) :
    ((DatabaseManager.store_question s p).1.questions.filter
      (fun q => q.message_ts = ts)).length ≤ 1 := by
  by_cases hts : ts = p.message_ts
  · subst hts
    rw [store_question_filter_inserted]
    simp
  · have hne : p.message_ts ≠ ts := fun hEq => hts hEq.symm
    simp only [DatabaseManager.store_question, List.filter_append,
      List.length_append]
    have hrow : (List.filter (fun q => q.message_ts = ts)
        [({ id := s.next_question_id, text := p.text, user_id := p.user_id,
            user_name := p.user_name, channel_id := p.channel_id,
            timestamp := p.timestamp, message_ts := p.message_ts,
            confidence_score := p.confidence_score,
            metadata := p.metadata } : QuestionRow)]).length = 0 := by
      simp [hne]
    have hsub : ((s.questions.filter
          (fun r => r.message_ts ≠ p.message_ts)).filter
        (fun q => q.message_ts = ts)).length ≤
        (s.questions.filter (fun q => q.message_ts = ts)).length :=
      List.Sublist.length_le ((List.filter_sublist _).filter _)
    omega

/-- The uniqueness bound survives any sequence of store_question calls,
from any store already satisfying it. -/
theorem foldl_store_question_unique (ps : List QuestionPayload) (s : Store)
    (h : ∀ ts, (s.questions.filter
      (fun q => q.message_ts = ts)).length ≤ 1) :
    ∀ ts, (((ps.foldl (fun s p => (DatabaseManager.store_question s p).1)
      s).questions.filter (fun q => q.message_ts = ts)).length ≤ 1) := by
  induction ps generalizing s with
  | nil => exact h
  | cons p rest ih =>
      exact ih _ (fun ts => store_question_preserves_unique s p ts (h ts))

/-- C9: origin message identity is unique across Question rows in every
reachable store — after any sequence of store_question calls starting
from a fresh database, including re-ingestions of the same message
identity, at most one Question row carries any given message identity:
the UNIQUE(message_ts) constraint together with the REPLACE write
policy keeps the table deduplicated by origin message. -/
theorem question_message_identity_unique (ps : List QuestionPayload)
    (ts : String) :
    ((ps.foldl (fun s p => (DatabaseManager.store_question s p).1)
      Store.empty).questions.filter
        (fun q => q.message_ts = ts)).length ≤ 1 :=
  foldl_store_question_unique ps Store.empty
    (fun _ => by simp [Store.empty]) ts

/-! ### C10 -/

/-- C10: an incoming Socket Mode event that is not a plain user message
— it carries a subtype, or lacks a truthy channel, user or timestamp,
or its trimmed text is empty, or it is not a message event at all — is
acknowledged but appends nothing to the processing queue; since the
handler only enqueues, such an event triggers no classification, no
store write and no ledger entry. -/
theorem non_plain_events_ack_only (toTime : String → Int)
    (queue : List Msg) (req : RealtimeQAMonitor.SocketRequest)
    (h : req.subtype ≠ none ∨
      RealtimeQAMonitor.truthyOpt req.channel = false ∨
      RealtimeQAMonitor.truthyOpt req.user = false ∨
      RealtimeQAMonitor.truthyOpt req.ts = false ∨
      req.stripped_text = "" ∨
      ¬ (req.req_type = "events_api" ∧ req.event_type = some "message")) :
    RealtimeQAMonitor.handle_message_event toTime queue req =
      (queue, true) := by
  obtain ⟨rt, et, sub, ch, us, tx, tss⟩ := req
  simp only [RealtimeQAMonitor.handle_message_event]
  by_cases hmain : rt = "events_api" ∧ et = some "message" ∧ sub = none
  case neg => rw [if_neg hmain]
  case pos =>
  rw [if_pos hmain]
  simp only [RealtimeQAMonitor.truthyOpt] at h
  rcases ch with _ | c
  · rfl
  rcases us with _ | u
  · rfl
  rcases tss with _ | t
  · rfl
  dsimp only at h ⊢
  have hone : c = "" ∨ u = "" ∨ t = "" ∨ tx = "" := by
    rcases h with h | h | h | h | h | h
    · exact absurd hmain.2.2 h
    · left
      by_contra hcne
      simp [hcne] at h
    · right; left
      by_contra hune
      simp [hune] at h
    · right; right; left
      by_contra htne
      simp [htne] at h
    · right; right; right
      exact h
    · exact absurd ⟨hmain.1, hmain.2.1⟩ h
  rw [if_neg]
  intro hcond
  rcases hone with h1 | h1 | h1 | h1
  · exact hcond.1 h1
  · exact hcond.2.1 h1
  · exact hcond.2.2.2 h1
  · exact hcond.2.2.1 h1

/-- A bot-message event: subtype present, everything else well formed. -/
def c10Req : RealtimeQAMonitor.SocketRequest :=
  ⟨"events_api", some "message", some "bot_message", some "C", some "U",
   "hello", some "50.0"⟩

/-- C10 witnessed: the bot-message event is acknowledged and the queue
stays empty. -/
theorem non_plain_events_ack_only_witness :
    RealtimeQAMonitor.handle_message_event (fun _ => 0) [] c10Req =
      ([], true) :=
  non_plain_events_ack_only (fun _ => 0) [] c10Req (Or.inl (by decide))
